import Mathlib

/-!
Verification of the `drawsvg/defs.py` module of the draw2Svg repository: a
shallow embedding of its SVG defs-element classes (gradients, clip paths,
masks, filters, markers, gradient stops, filter primitives) together with
theorems settling the specification's claims about them.

Python values relevant to this module are embedded as `PyVal` (None, int,
float, str); Python floats are modelled as exact rationals.  Elements are
attribute-bags with an ordered child list, as the spec's data model states.
-/

/-- A Python value as used by the defs module: `None`, an int, a float
(modelled as an exact rational), or a string. -/
inductive PyVal where
  | none : PyVal
  | int : Int → PyVal
  | float : ℚ → PyVal
  | str : String → PyVal
deriving DecidableEq, Repr

/-- A Python numeric value (int or float), used where the code performs
arithmetic that would raise on non-numbers (`Marker`). -/
inductive PyNum where
  | int : Int → PyNum
  | float : ℚ → PyNum
deriving DecidableEq, Repr

/-- The rational value of a Python number. -/
def PyNum.toRat : PyNum → ℚ
  | .int n => (n : ℚ)
  | .float q => q

/-- Python subtraction on numbers: int − int is an int, otherwise a float. -/
def pyNumSub : PyNum → PyNum → PyNum
  | .int a, .int b => .int (a - b)
  | a, b => .float (a.toRat - b.toRat)

/-- Python multiplication on numbers: int · int is an int, otherwise a float. -/
def pyNumMul : PyNum → PyNum → PyNum
  | .int a, .int b => .int (a * b)
  | a, b => .float (a.toRat * b.toRat)

/-- Python unary minus on numbers, preserving int/float. -/
def pyNumNeg : PyNum → PyNum
  | .int n => .int (-n)
  | .float q => .float (-q)

/-- Python `float(x)` on a number. -/
def pyNumFloat (a : PyNum) : PyNum := .float a.toRat

/-- Python `==` between numbers compares numeric values across int/float. -/
def pyNumEq (a b : PyNum) : Bool := a.toRat == b.toRat

/-- Inject a Python number into `PyVal`. -/
def PyVal.ofNum : PyNum → PyVal
  | .int n => .int n
  | .float q => .float q

/-- Whether a `PyVal` is numeric (supports arithmetic without a TypeError). -/
def PyVal.isNumeric : PyVal → Bool
  | .int _ => true
  | .float _ => true
  | _ => false

/-- Python `shift - v` for an int `shift`: succeeds exactly on numeric `v`,
raising a TypeError (here: `Option.none`) on `None` and strings. -/
def pyValSubInt (shift : Int) : PyVal → Option PyVal
  | .int n => Option.some (.int (shift - n))
  | .float q => Option.some (.float ((shift : ℚ) - q))
  | _ => Option.none

/-- The guarded axis-flip from the gradient constructors:
`try: v = y_shift - v / except TypeError: pass`. -/
def tryFlip (shift : Int) (v : PyVal) : PyVal :=
  match pyValSubInt shift v with
  | Option.some w => w
  | Option.none => v

/-- An SVG element: tag name, attribute list (keys from constructor keyword
arguments, in insertion order), ordered child list, and the base class's
`has_content` flag. -/
inductive Element where
  | mk : String → List (String × PyVal) → List Element → Bool → Element

/-- The element's tag name. -/
def Element.tag_name : Element → String
  | .mk t _ _ _ => t

/-- The element's attribute list. -/
def Element.args : Element → List (String × PyVal)
  | .mk _ a _ _ => a

/-- The element's ordered child list. -/
def Element.children : Element → List Element
  | .mk _ _ c _ => c

/-- The element's `has_content` flag. -/
def Element.hasContent : Element → Bool
  | .mk _ _ _ h => h

/-- First-match lookup in an attribute list (attribute lists built by the
constructors have distinct keys, mirroring Python keyword dictionaries). -/
def attrLookup : List (String × PyVal) → String → Option PyVal
  | [], _ => Option.none
  | (k1, v) :: rest, k => if k1 = k then Option.some v else attrLookup rest k

/-- Look up a stored attribute of an element. -/
def Element.getAttr (e : Element) (k : String) : Option PyVal :=
  attrLookup e.args k

/-- Modelled from the spec: the external base class `DrawingParentElement`
(in the repository's `elements` module, which is not under `src/`) stores the
constructor keyword arguments as the element's attribute mapping and starts
with an empty ordered child list; the class-level `has_content` flag is kept
on the instance. -/
def DrawingParentElement.init (tag : String) (hc : Bool)
    (kwargs : List (String × PyVal)) : Element :=
  .mk tag kwargs [] hc

/-- Modelled from the spec: the external base class's ordered child-append
(`self.append(child)` adds `child` as the last element of the child list). -/
def Element.append (e : Element) (child : Element) : Element :=
  .mk e.tag_name e.args (e.children ++ [child]) e.hasContent

/-- `DrawingDef.get_svg_defs`: a defs-root element reports itself as a
one-element sequence. -/
def DrawingDef.get_svg_defs (e : Element) : List Element := [e]

/-- `LinearGradient.__init__`: computes `y_shift` (0 for the
`userSpaceOnUse` mode, 1 otherwise), applies the guarded flip to `y1` and
`y2`, and stores all attributes. -/
def LinearGradient.init (x1 y1 x2 y2 : PyVal)
    (gradientUnits : String) (kwargs : List (String × PyVal)) : Element :=
  let y_shift : Int := if gradientUnits ≠ "userSpaceOnUse" then 1 else 0
  let y1f := tryFlip y_shift y1
  let y2f := tryFlip y_shift y2
  DrawingParentElement.init "linearGradient" true
    ([("x1", x1), ("y1", y1f), ("x2", x2), ("y2", y2f),
      ("gradientUnits", PyVal.str gradientUnits)] ++ kwargs)

/-- `GradientStop`: a leaf element (`has_content = False`) with tag `stop`,
holding `offset`, `stop_color`, `stop_opacity` and any extra attributes. -/
def GradientStop.init (offset stop_color stop_opacity : PyVal)
    (kwargs : List (String × PyVal)) : Element :=
  DrawingParentElement.init "stop" false
    ([("offset", offset), ("stop_color", stop_color),
      ("stop_opacity", stop_opacity)] ++ kwargs)

/-- `LinearGradient.add_stop`: builds a `GradientStop`, appends it as the
last child, and returns the created stop. -/
def LinearGradient.add_stop (g : Element) (offset color opacity : PyVal)
    (kwargs : List (String × PyVal)) : Element × Option Element :=
  let stop := GradientStop.init offset color opacity kwargs
  (g.append stop, Option.some stop)

/-- `RadialGradient.__init__`: same `y_shift` rule as `LinearGradient`,
applied to `cy` and `fy`; stores all attributes. -/
def RadialGradient.init (cx cy r : PyVal) (gradientUnits : String)
    (fy : PyVal) (kwargs : List (String × PyVal)) : Element :=
  let y_shift : Int := if gradientUnits ≠ "userSpaceOnUse" then 1 else 0
  let cyf := tryFlip y_shift cy
  let fyf := tryFlip y_shift fy
  DrawingParentElement.init "radialGradient" true
    ([("cx", cx), ("cy", cyf), ("r", r),
      ("gradientUnits", PyVal.str gradientUnits), ("fy", fyf)] ++ kwargs)

/-- `RadialGradient.add_stop`: builds and appends a `GradientStop` exactly as
`LinearGradient.add_stop` does, but returns nothing (`None`). -/
def RadialGradient.add_stop (g : Element) (offset color opacity : PyVal)
    (kwargs : List (String × PyVal)) : Element × Option Element :=
  let stop := GradientStop.init offset color opacity kwargs
  (g.append stop, Option.none)

/-- `ClipPath`: a plain defs-root element with tag `clipPath`. -/
def ClipPath.init (kwargs : List (String × PyVal)) : Element :=
  DrawingParentElement.init "clipPath" true kwargs

/-- `Mask`: a plain defs-root element with tag `mask`. -/
def Mask.init (kwargs : List (String × PyVal)) : Element :=
  DrawingParentElement.init "mask" true kwargs

/-- `Filter`: a plain defs-root element with tag `filter`. -/
def Filter.init (kwargs : List (String × PyVal)) : Element :=
  DrawingParentElement.init "filter" true kwargs

/-- `FilterItem.__init__`: forwards the attributes to the base constructor and
sets the instance's tag name to the supplied `tag_name`. -/
def FilterItem.init (tag_name : String)
    (args : List (String × PyVal)) : Element :=
  let base := DrawingParentElement.init "" true args
  .mk tag_name base.args base.children base.hasContent

/-- The decimal digits of a fractional part in `[0, 1)`, with fuel (every
float value, being a dyadic rational, has terminating digits). -/
def fracDigits : Nat → ℚ → String
  | 0, _ => ""
  | Nat.succ fuel, q =>
    if q = 0 then "" else
      let q10 := q * 10
      let d : Int := q10.num / (q10.den : Int)
      toString d ++ fracDigits fuel (q10 - (d : ℚ))

/-- Python `str` of a number: ints print in decimal; floats print as their
terminating decimal expansion with at least one fractional digit, as Python
prints float values that are exactly short decimals. -/
def pyNumRepr : PyNum → String
  | .int n => toString n
  | .float q =>
    let sign := if q < 0 then "-" else ""
    let a := if q < 0 then -q else q
    let ip : Int := a.num / (a.den : Int)
    let fp : ℚ := a - (ip : ℚ)
    sign ++ toString ip ++ "." ++ (if fp = 0 then "0" else fracDigits 100 fp)

/-- The four-place format string used for `viewBox`, joining the values with
single spaces. -/
def pyFormat4 (a b c d : PyNum) : String :=
  pyNumRepr a ++ " " ++ pyNumRepr b ++ " " ++ pyNumRepr c ++ " " ++
    pyNumRepr d

/-- Python dict insertion: replace the value at an existing key in place, or
add the pair at the end. -/
def dictInsert : List (String × PyVal) → String → PyVal →
    List (String × PyVal)
  | [], k, v => [(k, v)]
  | (k1, v1) :: rest, k, v =>
    if k1 = k then (k1, v) :: rest else (k1, v1) :: dictInsert rest k v

/-- Python dict-literal merge with splat: insert every pair of `l` into `d`
in order, later pairs overriding earlier values at the same key. -/
def dictMerge (d l : List (String × PyVal)) : List (String × PyVal) :=
  l.foldl (fun acc p => dictInsert acc p.1 p.2) d

/-- Lookup of the last binding of a key in a keyword list (the binding a
Python dict merge lets win). -/
def lastLookup (l : List (String × PyVal)) (k : String) : Option PyVal :=
  attrLookup l.reverse k

/-- `Marker.__init__`: computes `width`, `height`, the scaled (or, for
`scale == 1`, original) marker dimensions and the `viewBox` string from the
unscaled box, merges the caller's extra keyword arguments over those computed
defaults, and stores all attributes. -/
def Marker.init (minx miny maxx maxy : PyNum) (scale : PyNum)
    (orient : PyVal) (kwargs : List (String × PyVal)) : Element :=
  let width := pyNumSub maxx minx
  let height := pyNumSub maxy miny
  let computed : List (String × PyVal) :=
    [("markerWidth",
       if pyNumEq scale (PyNum.int 1) then PyVal.ofNum width
       else PyVal.ofNum (pyNumMul (pyNumFloat width) scale)),
     ("markerHeight",
       if pyNumEq scale (PyNum.int 1) then PyVal.ofNum height
       else PyVal.ofNum (pyNumMul (pyNumFloat height) scale)),
     ("viewBox", PyVal.str (pyFormat4 minx (pyNumNeg maxy) width height)),
     ("orient", orient)]
  DrawingParentElement.init "marker" true (dictMerge computed kwargs)

theorem attrLookup_dictInsert_self (d : List (String × PyVal)) (k : String)
    (v : PyVal) : attrLookup (dictInsert d k v) k = Option.some v := by
  induction d with
  | nil => simp [dictInsert, attrLookup]
  | cons p rest ih =>
    obtain ⟨k1, v1⟩ := p
    by_cases h : k1 = k <;> simp [dictInsert, attrLookup, h, ih]

theorem attrLookup_dictInsert_ne (d : List (String × PyVal)) (k k1 : String)
    (v : PyVal) (h : k1 ≠ k) :
    attrLookup (dictInsert d k1 v) k = attrLookup d k := by
  induction d with
  | nil => simp [dictInsert, attrLookup, h]
  | cons p rest ih =>
    obtain ⟨k2, v2⟩ := p
    simp only [dictInsert]
    by_cases h2 : k2 = k1
    · subst h2
      simp [attrLookup, h]
    · simp only [if_neg h2]
      by_cases h3 : k2 = k
      · simp [attrLookup, h3]
      · simp [attrLookup, h3, ih]

theorem attrLookup_append (a b : List (String × PyVal)) (k : String) :
    attrLookup (a ++ b) k =
      ((attrLookup a k).rec (attrLookup b k) (fun v => Option.some v) :
        Option PyVal) := by
  induction a with
  | nil => simp [attrLookup]
  | cons p rest ih =>
    obtain ⟨k1, v1⟩ := p
    by_cases h : k1 = k <;> simp [attrLookup, h, ih]

theorem lastLookup_cons (k1 : String) (v1 : PyVal)
    (t : List (String × PyVal)) (k : String) :
    lastLookup ((k1, v1) :: t) k =
      ((lastLookup t k).rec (if k1 = k then Option.some v1 else Option.none)
        (fun v => Option.some v) : Option PyVal) := by
  simp only [lastLookup, List.reverse_cons, attrLookup_append]
  cases h : attrLookup t.reverse k <;> simp [attrLookup, h]

theorem attrLookup_dictMerge (d l : List (String × PyVal)) (k : String) :
    attrLookup (dictMerge d l) k =
      ((lastLookup l k).rec (attrLookup d k) (fun v => Option.some v) :
        Option PyVal) := by
  induction l generalizing d with
  | nil => simp [dictMerge, lastLookup, attrLookup]
  | cons p t ih =>
    obtain ⟨k1, v1⟩ := p
    have step : dictMerge d ((k1, v1) :: t) =
        dictMerge (dictInsert d k1 v1) t := rfl
    rw [step, ih, lastLookup_cons]
    cases h : lastLookup t k
    · by_cases h1 : k1 = k
      · subst h1
        simp [attrLookup_dictInsert_self]
      · simp [h1, attrLookup_dictInsert_ne _ _ _ _ h1]
    · simp

theorem tryFlip_of_not_numeric (shift : Int) (v : PyVal)
    (hv : v.isNumeric = false) : tryFlip shift v = v := by
  cases v with
  | int n => simp [PyVal.isNumeric] at hv
  | float q => simp [PyVal.isNumeric] at hv
  | none => rfl
  | str s => rfl

/-- Claim C1, counterexample: `LinearGradient(0, 1, 0, 2)` with
`gradientUnits="userSpaceOnUse"` stores `y1 = -1`, not the input `1`: the
stored y-coordinate is not the constructor input, refuting the claimed
identity. -/
theorem linearGradient_userSpace_y1_not_identity :
    (LinearGradient.init (PyVal.int 0) (PyVal.int 1) (PyVal.int 0)
        (PyVal.int 2) "userSpaceOnUse" []).getAttr "y1"
      ≠ Option.some (PyVal.int 1)
    ∧ (LinearGradient.init (PyVal.int 0) (PyVal.int 1) (PyVal.int 0)
        (PyVal.int 2) "userSpaceOnUse" []).getAttr "y1"
      = Option.some (PyVal.int (-1)) := by
  constructor
  · decide
  · decide

/-- Claim C1, amended: with `gradientUnits = "userSpaceOnUse"` the shift is
`0`, so every numeric y-coordinate input `v` (y1, y2 for LinearGradient; cy,
fy for RadialGradient) is stored as `0 - v = -v`, the negation of the input;
it equals the input only when the input is zero. -/
theorem gradient_userSpace_y_negated (x1 x2 cx r : PyVal)
    (kwargs : List (String × PyVal)) :
    (∀ n m : Int,
      (LinearGradient.init x1 (PyVal.int n) x2 (PyVal.int m)
        "userSpaceOnUse" kwargs).getAttr "y1"
          = Option.some (PyVal.int (-n))
      ∧ (LinearGradient.init x1 (PyVal.int n) x2 (PyVal.int m)
          "userSpaceOnUse" kwargs).getAttr "y2"
          = Option.some (PyVal.int (-m)))
    ∧ (∀ p q : ℚ,
      (LinearGradient.init x1 (PyVal.float p) x2 (PyVal.float q)
        "userSpaceOnUse" kwargs).getAttr "y1"
          = Option.some (PyVal.float (-p))
      ∧ (LinearGradient.init x1 (PyVal.float p) x2 (PyVal.float q)
          "userSpaceOnUse" kwargs).getAttr "y2"
          = Option.some (PyVal.float (-q)))
    ∧ (∀ n m : Int,
      (RadialGradient.init cx (PyVal.int n) r "userSpaceOnUse"
        (PyVal.int m) kwargs).getAttr "cy"
          = Option.some (PyVal.int (-n))
      ∧ (RadialGradient.init cx (PyVal.int n) r "userSpaceOnUse"
          (PyVal.int m) kwargs).getAttr "fy"
          = Option.some (PyVal.int (-m)))
    ∧ (∀ p q : ℚ,
      (RadialGradient.init cx (PyVal.float p) r "userSpaceOnUse"
        (PyVal.float q) kwargs).getAttr "cy"
          = Option.some (PyVal.float (-p))
      ∧ (RadialGradient.init cx (PyVal.float p) r "userSpaceOnUse"
          (PyVal.float q) kwargs).getAttr "fy"
          = Option.some (PyVal.float (-q))) := by
  refine ⟨fun n m => ⟨?_, ?_⟩, fun p q => ⟨?_, ?_⟩,
    fun n m => ⟨?_, ?_⟩, fun p q => ⟨?_, ?_⟩⟩ <;>
    simp [LinearGradient.init, RadialGradient.init, tryFlip, pyValSubInt,
      DrawingParentElement.init, Element.getAttr, Element.args, attrLookup]

/-- Claim C2: with `gradientUnits` any string other than `"userSpaceOnUse"`,
every numeric y-coordinate input `v` (y1, y2 for LinearGradient; cy, fy for
RadialGradient) is stored as `1 - v`. -/
theorem gradient_other_units_y_flip (units : String)
    (h : units ≠ "userSpaceOnUse") (x1 x2 cx r : PyVal)
    (kwargs : List (String × PyVal)) :
    (∀ n m : Int,
      (LinearGradient.init x1 (PyVal.int n) x2 (PyVal.int m) units
        kwargs).getAttr "y1" = Option.some (PyVal.int (1 - n))
      ∧ (LinearGradient.init x1 (PyVal.int n) x2 (PyVal.int m) units
          kwargs).getAttr "y2" = Option.some (PyVal.int (1 - m)))
    ∧ (∀ p q : ℚ,
      (LinearGradient.init x1 (PyVal.float p) x2 (PyVal.float q) units
        kwargs).getAttr "y1" = Option.some (PyVal.float (1 - p))
      ∧ (LinearGradient.init x1 (PyVal.float p) x2 (PyVal.float q) units
          kwargs).getAttr "y2" = Option.some (PyVal.float (1 - q)))
    ∧ (∀ n m : Int,
      (RadialGradient.init cx (PyVal.int n) r units (PyVal.int m)
        kwargs).getAttr "cy" = Option.some (PyVal.int (1 - n))
      ∧ (RadialGradient.init cx (PyVal.int n) r units (PyVal.int m)
          kwargs).getAttr "fy" = Option.some (PyVal.int (1 - m)))
    ∧ (∀ p q : ℚ,
      (RadialGradient.init cx (PyVal.float p) r units (PyVal.float q)
        kwargs).getAttr "cy" = Option.some (PyVal.float (1 - p))
      ∧ (RadialGradient.init cx (PyVal.float p) r units (PyVal.float q)
          kwargs).getAttr "fy" = Option.some (PyVal.float (1 - q))) := by
  refine ⟨fun n m => ⟨?_, ?_⟩, fun p q => ⟨?_, ?_⟩,
    fun n m => ⟨?_, ?_⟩, fun p q => ⟨?_, ?_⟩⟩ <;>
    simp [LinearGradient.init, RadialGradient.init, tryFlip, pyValSubInt,
      DrawingParentElement.init, Element.getAttr, Element.args, attrLookup,
      h]

/-- Claim C2, witness: `LinearGradient(0, 0, 1, 1,
gradientUnits="objectBoundingBox")` stores `y1 = 1` and `y2 = 0`. -/
theorem gradient_other_units_y_flip_witness :
    ("objectBoundingBox" ≠ "userSpaceOnUse")
    ∧ (LinearGradient.init (PyVal.int 0) (PyVal.int 0) (PyVal.int 1)
        (PyVal.int 1) "objectBoundingBox" []).getAttr "y1"
        = Option.some (PyVal.int 1)
    ∧ (LinearGradient.init (PyVal.int 0) (PyVal.int 0) (PyVal.int 1)
        (PyVal.int 1) "objectBoundingBox" []).getAttr "y2"
        = Option.some (PyVal.int 0) := by
  refine ⟨by decide, ?_, ?_⟩
  · exact ((gradient_other_units_y_flip "objectBoundingBox" (by decide)
      (PyVal.int 0) (PyVal.int 1) (PyVal.int 0) (PyVal.int 0) []).1
        0 1).1.trans (by decide)
  · exact ((gradient_other_units_y_flip "objectBoundingBox" (by decide)
      (PyVal.int 0) (PyVal.int 1) (PyVal.int 0) (PyVal.int 0) []).1
        0 1).2.trans (by decide)

/-- Claim C3: a coordinate argument that is absent or non-numeric (for
example `fy` left at its default `None`) is stored unchanged after
construction, for every value of `gradientUnits`: the failing subtraction is
caught and the value is left untouched. -/
theorem gradient_non_numeric_unchanged (units : String) (v : PyVal)
    (hv : v.isNumeric = false) (x1 x2 y2 cx cy r : PyVal)
    (kwargs : List (String × PyVal)) :
    (LinearGradient.init x1 v x2 y2 units kwargs).getAttr "y1"
      = Option.some v
    ∧ (LinearGradient.init x1 y2 x2 v units kwargs).getAttr "y2"
      = Option.some v
    ∧ (RadialGradient.init cx v r units y2 kwargs).getAttr "cy"
      = Option.some v
    ∧ (RadialGradient.init cx cy r units v kwargs).getAttr "fy"
      = Option.some v := by
  refine ⟨?_, ?_, ?_, ?_⟩ <;>
    simp [LinearGradient.init, RadialGradient.init,
      tryFlip_of_not_numeric _ _ hv, DrawingParentElement.init,
      Element.getAttr, Element.args, attrLookup]

/-- Claim C3, witness: `fy` left at `None` stays `None` in a RadialGradient
with `gradientUnits="objectBoundingBox"`, and a `None` `y1` stays `None` in a
LinearGradient with the default units. -/
theorem gradient_non_numeric_unchanged_witness :
    PyVal.isNumeric PyVal.none = false
    ∧ (RadialGradient.init (PyVal.int 0) (PyVal.int 0) (PyVal.int 1)
        "objectBoundingBox" PyVal.none []).getAttr "fy"
        = Option.some PyVal.none
    ∧ (LinearGradient.init (PyVal.int 0) PyVal.none (PyVal.int 1)
        (PyVal.int 1) "userSpaceOnUse" []).getAttr "y1"
        = Option.some PyVal.none := by
  refine ⟨by decide, ?_, ?_⟩
  · exact (gradient_non_numeric_unchanged "objectBoundingBox" PyVal.none
      (by decide) (PyVal.int 0) (PyVal.int 1) (PyVal.int 0) (PyVal.int 0)
      (PyVal.int 0) (PyVal.int 1) []).2.2.2
  · exact (gradient_non_numeric_unchanged "userSpaceOnUse" PyVal.none
      (by decide) (PyVal.int 0) (PyVal.int 1) (PyVal.int 1) (PyVal.int 0)
      (PyVal.int 0) (PyVal.int 1) []).1

/-- Claim C4: `LinearGradient.add_stop(offset, color)` with opacity unset
appends exactly one new GradientStop child (attributes `offset`,
`stop_color = color`, `stop_opacity = None`) as the last element of the
gradient's child sequence, leaves the gradient's tag and attributes
unchanged, and returns the created stop. -/
theorem linearGradient_add_stop_appends_and_returns (g : Element)
    (offset color : PyVal) :
    ((LinearGradient.add_stop g offset color PyVal.none []).1).children
      = g.children ++ [GradientStop.init offset color PyVal.none []]
    ∧ (LinearGradient.add_stop g offset color PyVal.none []).2
      = Option.some (GradientStop.init offset color PyVal.none [])
    ∧ (GradientStop.init offset color PyVal.none []).tag_name = "stop"
    ∧ (GradientStop.init offset color PyVal.none []).getAttr "offset"
      = Option.some offset
    ∧ (GradientStop.init offset color PyVal.none []).getAttr "stop_color"
      = Option.some color
    ∧ (GradientStop.init offset color PyVal.none []).getAttr "stop_opacity"
      = Option.some PyVal.none
    ∧ ((LinearGradient.add_stop g offset color PyVal.none []).1).tag_name
      = g.tag_name
    ∧ ((LinearGradient.add_stop g offset color PyVal.none []).1).args
      = g.args :=
  ⟨rfl, rfl, rfl, rfl, rfl, rfl, rfl, rfl⟩

/-- Claim C5: `RadialGradient.add_stop` constructs and appends a GradientStop
exactly as `LinearGradient.add_stop` does (same resulting parent element,
same stop appended last), but returns nothing. -/
theorem radialGradient_add_stop_returns_nothing (g : Element)
    (offset color opacity : PyVal) (kwargs : List (String × PyVal)) :
    (RadialGradient.add_stop g offset color opacity kwargs).1
      = (LinearGradient.add_stop g offset color opacity kwargs).1
    ∧ ((RadialGradient.add_stop g offset color opacity kwargs).1).children
      = g.children ++ [GradientStop.init offset color opacity kwargs]
    ∧ (RadialGradient.add_stop g offset color opacity kwargs).2
      = Option.none :=
  ⟨rfl, rfl, rfl⟩

/-- Claim C8: `FilterItem(tag_name, attrs)` has exactly the supplied string
as its element tag and forwards the attributes unchanged to the base
constructor; in particular `FilterItem("feGaussianBlur", stdDeviation=3)`
has tag `feGaussianBlur` and attribute `stdDeviation = 3`. -/
theorem filterItem_tag_and_attrs (tag : String)
    (attrs : List (String × PyVal)) :
    (FilterItem.init tag attrs).tag_name = tag
    ∧ (FilterItem.init tag attrs).args = attrs
    ∧ (FilterItem.init "feGaussianBlur"
        [("stdDeviation", PyVal.int 3)]).tag_name = "feGaussianBlur"
    ∧ (FilterItem.init "feGaussianBlur"
        [("stdDeviation", PyVal.int 3)]).getAttr "stdDeviation"
      = Option.some (PyVal.int 3) :=
  ⟨rfl, rfl, rfl, rfl⟩

/-- Claim C9: every defs-root element instance (LinearGradient,
RadialGradient, ClipPath, Mask, Filter, Marker), when queried with
`get_svg_defs`, returns the one-element sequence containing itself. -/
theorem defs_root_get_svg_defs_identity (x1 y1 x2 y2 cx cy r fy : PyVal)
    (units : String) (kwargs ckw mkw fkw mkkw : List (String × PyVal))
    (minx miny maxx maxy scale : PyNum) (orient : PyVal) :
    DrawingDef.get_svg_defs (LinearGradient.init x1 y1 x2 y2 units kwargs)
      = [LinearGradient.init x1 y1 x2 y2 units kwargs]
    ∧ DrawingDef.get_svg_defs (RadialGradient.init cx cy r units fy kwargs)
      = [RadialGradient.init cx cy r units fy kwargs]
    ∧ DrawingDef.get_svg_defs (ClipPath.init ckw) = [ClipPath.init ckw]
    ∧ DrawingDef.get_svg_defs (Mask.init mkw) = [Mask.init mkw]
    ∧ DrawingDef.get_svg_defs (Filter.init fkw) = [Filter.init fkw]
    ∧ DrawingDef.get_svg_defs
        (Marker.init minx miny maxx maxy scale orient mkkw)
      = [Marker.init minx miny maxx maxy scale orient mkkw] :=
  ⟨rfl, rfl, rfl, rfl, rfl, rfl⟩

/-- Claim C10: the axis-flip touches only the y-coordinate attributes: for
every value of `gradientUnits`, a LinearGradient stores `x1` and `x2` exactly
as supplied and a RadialGradient stores `cx` and `r` exactly as supplied (and
both store `gradientUnits` itself as supplied). -/
theorem gradient_other_attributes_unchanged (units : String)
    (x1 y1 x2 y2 cx cy r fy : PyVal) (kwargs : List (String × PyVal)) :
    (LinearGradient.init x1 y1 x2 y2 units kwargs).getAttr "x1"
      = Option.some x1
    ∧ (LinearGradient.init x1 y1 x2 y2 units kwargs).getAttr "x2"
      = Option.some x2
    ∧ (LinearGradient.init x1 y1 x2 y2 units kwargs).getAttr "gradientUnits"
      = Option.some (PyVal.str units)
    ∧ (RadialGradient.init cx cy r units fy kwargs).getAttr "cx"
      = Option.some cx
    ∧ (RadialGradient.init cx cy r units fy kwargs).getAttr "r"
      = Option.some r
    ∧ (RadialGradient.init cx cy r units fy kwargs).getAttr "gradientUnits"
      = Option.some (PyVal.str units) :=
  ⟨rfl, rfl, rfl, rfl, rfl, rfl⟩

/-- Claim C6: for `Marker(minx, miny, maxx, maxy, scale)` with
`width = maxx - minx` and `height = maxy - miny`: when `scale == 1` the
stored `markerWidth`/`markerHeight` are the original `width`/`height` values
(original numeric type preserved); otherwise they are
`float(width) * scale` / `float(height) * scale`; and in every case
`viewBox` is the string `minx -maxy width height` built from the unscaled
width and height. -/
theorem marker_attributes (minx miny maxx maxy scale : PyNum)
    (orient : PyVal) :
    (pyNumEq scale (PyNum.int 1) = true →
      (Marker.init minx miny maxx maxy scale orient []).getAttr
          "markerWidth" = Option.some (PyVal.ofNum (pyNumSub maxx minx))
      ∧ (Marker.init minx miny maxx maxy scale orient []).getAttr
          "markerHeight" = Option.some (PyVal.ofNum (pyNumSub maxy miny)))
    ∧ (pyNumEq scale (PyNum.int 1) = false →
      (Marker.init minx miny maxx maxy scale orient []).getAttr
          "markerWidth"
        = Option.some
            (PyVal.ofNum (pyNumMul (pyNumFloat (pyNumSub maxx minx)) scale))
      ∧ (Marker.init minx miny maxx maxy scale orient []).getAttr
          "markerHeight"
        = Option.some
            (PyVal.ofNum
              (pyNumMul (pyNumFloat (pyNumSub maxy miny)) scale)))
    ∧ (Marker.init minx miny maxx maxy scale orient []).getAttr "viewBox"
      = Option.some
          (PyVal.str
            (pyFormat4 minx (pyNumNeg maxy) (pyNumSub maxx minx)
              (pyNumSub maxy miny))) := by
  refine ⟨fun h => ⟨?_, ?_⟩, fun h => ⟨?_, ?_⟩, rfl⟩ <;>
    simp [Marker.init, dictMerge, Element.getAttr,
      DrawingParentElement.init, Element.args, attrLookup, h]

/-- Claim C6, witness: `Marker(0, 0, 10, 20, scale=2)` yields
`markerWidth = 20.0`, `markerHeight = 40.0`, `viewBox = "0 -20 10 20"`, and
`Marker(0, 0, 10, 20, scale=1)` yields the unscaled ints `markerWidth = 10`,
`markerHeight = 20` and the same `viewBox`. -/
theorem marker_attributes_witness :
    pyNumEq (PyNum.int 2) (PyNum.int 1) = false
    ∧ (Marker.init (PyNum.int 0) (PyNum.int 0) (PyNum.int 10)
        (PyNum.int 20) (PyNum.int 2) (PyVal.str "auto") []).getAttr
        "markerWidth" = Option.some (PyVal.float 20)
    ∧ (Marker.init (PyNum.int 0) (PyNum.int 0) (PyNum.int 10)
        (PyNum.int 20) (PyNum.int 2) (PyVal.str "auto") []).getAttr
        "markerHeight" = Option.some (PyVal.float 40)
    ∧ (Marker.init (PyNum.int 0) (PyNum.int 0) (PyNum.int 10)
        (PyNum.int 20) (PyNum.int 2) (PyVal.str "auto") []).getAttr
        "viewBox" = Option.some (PyVal.str "0 -20 10 20")
    ∧ pyNumEq (PyNum.int 1) (PyNum.int 1) = true
    ∧ (Marker.init (PyNum.int 0) (PyNum.int 0) (PyNum.int 10)
        (PyNum.int 20) (PyNum.int 1) (PyVal.str "auto") []).getAttr
        "markerWidth" = Option.some (PyVal.int 10)
    ∧ (Marker.init (PyNum.int 0) (PyNum.int 0) (PyNum.int 10)
        (PyNum.int 20) (PyNum.int 1) (PyVal.str "auto") []).getAttr
        "markerHeight" = Option.some (PyVal.int 20)
    ∧ (Marker.init (PyNum.int 0) (PyNum.int 0) (PyNum.int 10)
        (PyNum.int 20) (PyNum.int 1) (PyVal.str "auto") []).getAttr
        "viewBox" = Option.some (PyVal.str "0 -20 10 20") := by
  have h2 := marker_attributes (PyNum.int 0) (PyNum.int 0) (PyNum.int 10)
    (PyNum.int 20) (PyNum.int 2) (PyVal.str "auto")
  have h1 := marker_attributes (PyNum.int 0) (PyNum.int 0) (PyNum.int 10)
    (PyNum.int 20) (PyNum.int 1) (PyVal.str "auto")
  refine ⟨by decide, ?_, ?_, ?_, by decide, ?_, ?_, ?_⟩
  · exact ((h2.2.1 (by decide)).1).trans (by
      norm_num [pyNumSub, pyNumFloat, pyNumMul, PyNum.toRat, PyVal.ofNum])
  · exact ((h2.2.1 (by decide)).2).trans (by
      norm_num [pyNumSub, pyNumFloat, pyNumMul, PyNum.toRat, PyVal.ofNum])
  · exact (h2.2.2).trans (by decide)
  · exact ((h1.1 (by decide)).1).trans (by decide)
  · exact ((h1.1 (by decide)).2).trans (by decide)
  · exact (h1.2.2).trans (by decide)

/-- Claim C7: when a Marker is constructed with extra keyword arguments
whose names collide with the computed attributes (`markerWidth`,
`markerHeight`, `viewBox`, `orient`), the caller-supplied value takes
precedence over the computed default in the stored attributes. -/
theorem marker_kwargs_override (minx miny maxx maxy scale : PyNum)
    (orient : PyVal) (kwargs : List (String × PyVal)) (k : String)
    (v : PyVal)
    (_hk : k = "markerWidth" ∨ k = "markerHeight" ∨ k = "viewBox"
      ∨ k = "orient")
    (hv : lastLookup kwargs k = Option.some v) :
    (Marker.init minx miny maxx maxy scale orient kwargs).getAttr k
      = Option.some v := by
  simp [Marker.init, Element.getAttr, DrawingParentElement.init,
    Element.args, attrLookup_dictMerge, hv]

/-- Claim C7, witness: a caller-supplied `markerWidth=99` overrides the
computed `markerWidth` of `Marker(0, 0, 10, 20, scale=2)`. -/
theorem marker_kwargs_override_witness :
    ("markerWidth" = "markerWidth" ∨ "markerWidth" = "markerHeight"
      ∨ "markerWidth" = "viewBox" ∨ "markerWidth" = "orient")
    ∧ lastLookup [("markerWidth", PyVal.int 99)] "markerWidth"
      = Option.some (PyVal.int 99)
    ∧ (Marker.init (PyNum.int 0) (PyNum.int 0) (PyNum.int 10)
        (PyNum.int 20) (PyNum.int 2) (PyVal.str "auto")
        [("markerWidth", PyVal.int 99)]).getAttr "markerWidth"
      = Option.some (PyVal.int 99) :=
  ⟨Or.inl rfl, by decide,
    marker_kwargs_override (PyNum.int 0) (PyNum.int 0) (PyNum.int 10)
      (PyNum.int 20) (PyNum.int 2) (PyVal.str "auto")
      [("markerWidth", PyVal.int 99)] "markerWidth" (PyVal.int 99)
      (Or.inl rfl) (by decide)⟩
